import Mathlib

/-!
Verification of the `MatterTlvToJson` encoder in
`src/python_testing/basic_composition_support.py`.

The encoder takes decoded TLV data (a Python dict mapping integer field ids to
decoded values) and produces a JSON-safe dict whose keys are tagged with the
source value's type.  We embed the Python value universe shallowly:

* `PyVal` is the closed set of runtime values the decoder hands the encoder
  (`chip.tlv.uint`, `int`, `bool`, `list`, `dict`, `chip.tlv.float32`, `float`,
  `bytes`, `str`, `ValueDecodeFailure`, `None`) plus `other`, standing for a
  runtime object of any class outside that set (used to study the unmapped
  variant behaviour).  The `vdf` payload models `str(value)` of the
  `ValueDecodeFailure` object.
* `PyType` models the exact runtime class `type(v)`: Python's
  `key_type_mappings[value_type]` hashes on the exact class, so `bool`
  (a subclass of `int`) and `chip.tlv.uint` (also a subclass of `int`)
  have their own entries and never fall back to `int`.
* Exceptions are modelled with `Except PyErr`: `KeyError` from a failed dict
  subscript, `ValueError` raised by `ConvertValue`, `IndexError` from `[0]`.
* Python dicts are association lists in insertion order (Python dicts iterate
  in insertion order, and the field ids of one cluster instance are unique,
  so `matter_json_dict[new_key] = new_value` appends a fresh entry).
-/

/-- The exact runtime class of a decoded value, as seen by `type(...)` on
line 67 of the source. -/
inductive PyType where
  | uint
  | int
  | bool
  | list
  | dict
  | float32
  | float
  | bytes
  | str
  | vdf
  | noneType
  | other (clsName : String)
deriving DecidableEq, Repr

/-- A decoded TLV value: the Python objects that can appear in `tlv_data`.
`vdf s` is a `chip.clusters.Attribute.ValueDecodeFailure` whose `str()` is `s`;
`other cls` is a runtime object of an unmapped class named `cls`.  Float
payloads are carried as rationals: the encoder only passes them through. -/
inductive PyVal where
  | uint (n : Nat)
  | int (n : Int)
  | bool (b : Bool)
  | list (xs : List PyVal)
  | dict (d : List (Int × PyVal))
  | float32 (q : Rat)
  | float (q : Rat)
  | bytes (bs : List Nat)
  | str (s : String)
  | vdf (s : String)
  | none
  | other (clsName : String)

/-- A JSON-safe Python value as stored into `matter_json_dict`: either one of
the scalars passed through unchanged by `ConvertValue`, a base64/diagnostic
string, a converted list, a recursively converted dict (string keys), or an
unmapped object passed through untouched. -/
inductive JVal where
  | uint (n : Nat)
  | int (n : Int)
  | bool (b : Bool)
  | float32 (q : Rat)
  | float (q : Rat)
  | str (s : String)
  | none
  | arr (xs : List JVal)
  | obj (d : List (String × JVal))
  | other (clsName : String)

/-- The Python exceptions that can arise inside `MatterTlvToJson`. -/
inductive PyErr where
  | valueError (msg : String)
  | keyError
  | indexError
deriving DecidableEq, Repr

abbrev TlvDict := List (Int × PyVal)
abbrev JsonDict := List (String × JVal)

/-- `type(tlv_data[key])` (source line 67): the exact runtime class. -/
def type_of : PyVal → PyType
  | .uint _ => .uint
  | .int _ => .int
  | .bool _ => .bool
  | .list _ => .list
  | .dict _ => .dict
  | .float32 _ => .float32
  | .float _ => .float
  | .bytes _ => .bytes
  | .str _ => .str
  | .vdf _ => .vdf
  | .none => .noneType
  | .other c => .other c

/-- The tag table of source lines 39–51, in source order. -/
def key_type_mappings : List (PyType × String) :=
  [(.uint, "UINT"),
   (.int, "INT"),
   (.bool, "BOOL"),
   (.list, "ARRAY"),
   (.dict, "STRUCT"),
   (.float32, "FLOAT"),
   (.float, "DOUBLE"),
   (.bytes, "BYTES"),
   (.str, "STRING"),
   (.vdf, "ERROR"),
   (.noneType, "NULL")]

/-- `key_type_mappings[t]`: Python dict subscript, raising `KeyError` when the
class has no entry (source lines 70 and 81). -/
def lookupTag (t : PyType) : Except PyErr String :=
  match key_type_mappings.lookup t with
  | some s => Except.ok s
  | Option.none => Except.error .keyError

/-- Python `len(new_value)` (source line 80): `new_value` there is either the
converted list or the `str(e)` of a caught `ValueError`. -/
def PyLen : JVal → Nat
  | .arr xs => xs.length
  | .str s => s.length
  | _ => 0

/-! ### base64 (model of `base64.b64encode(value).decode("UTF-8")`) -/

/-- The RFC 4648 base64 alphabet. -/
def b64Alphabet : List Char :=
  "ABCDEFGHIJKLMNOPQRSTUVWXYZabcdefghijklmnopqrstuvwxyz0123456789+/".toList

/-- The alphabet character for a 6-bit group. -/
def b64Char (n : Nat) : Char := b64Alphabet.getD n '?'

/-- Position of a character in the base64 alphabet (64 when absent). -/
def b64Index (c : Char) : Nat := b64Alphabet.indexOf c

/-- base64-encode a byte sequence, 3 input bytes to 4 output characters,
padding with `=`. -/
def b64encodeChars : List Nat → List Char
  | [] => []
  | [a] => [b64Char (a / 4), b64Char (a % 4 * 16), '=', '=']
  | [a, b] => [b64Char (a / 4), b64Char (a % 4 * 16 + b / 16), b64Char (b % 16 * 4), '=']
  | a :: b :: c :: rest =>
      b64Char (a / 4) :: b64Char (a % 4 * 16 + b / 16) ::
      b64Char (b % 16 * 4 + c / 64) :: b64Char (c % 64) :: b64encodeChars rest

/-- `base64.b64encode(value).decode("UTF-8")` on source line 58. -/
def b64encode (bs : List Nat) : String := String.mk (b64encodeChars bs)

/-- base64-decode 4 characters to 3 bytes, honouring `=` padding. -/
def b64decodeChars : List Char → List Nat
  | c1 :: c2 :: c3 :: c4 :: rest =>
      if c3 = '=' then [b64Index c1 * 4 + b64Index c2 / 16]
      else if c4 = '=' then
        [b64Index c1 * 4 + b64Index c2 / 16, b64Index c2 % 16 * 16 + b64Index c3 / 4]
      else
        (b64Index c1 * 4 + b64Index c2 / 16) ::
        (b64Index c2 % 16 * 16 + b64Index c3 / 4) ::
        (b64Index c3 % 4 * 64 + b64Index c4) :: b64decodeChars rest
  | _ => []

/-- base64-decode a string. -/
def b64decode (s : String) : List Nat := b64decodeChars s.data

/-! ### `copy.deepcopy` (source line 68) -/

mutual

/-- `copy.deepcopy(tlv_data[key])`: a structurally fresh copy of the value. -/
def deepcopy : PyVal → PyVal
  | .uint n => .uint n
  | .int n => .int n
  | .bool b => .bool b
  | .list xs => .list (deepcopyList xs)
  | .dict d => .dict (deepcopyDict d)
  | .float32 q => .float32 q
  | .float q => .float q
  | .bytes bs => .bytes bs
  | .str s => .str s
  | .vdf s => .vdf s
  | .none => .none
  | .other c => .other c

def deepcopyList : List PyVal → List PyVal
  | [] => []
  | x :: xs => deepcopy x :: deepcopyList xs

def deepcopyDict : TlvDict → TlvDict
  | [] => []
  | (k, v) :: d => (k, deepcopy v) :: deepcopyDict d

end

mutual

theorem deepcopy_eq : (v : PyVal) → deepcopy v = v
  | .uint _ => by rw [deepcopy]
  | .int _ => by rw [deepcopy]
  | .bool _ => by rw [deepcopy]
  | .list xs => by rw [deepcopy, deepcopyList_eq xs]
  | .dict d => by rw [deepcopy, deepcopyDict_eq d]
  | .float32 _ => by rw [deepcopy]
  | .float _ => by rw [deepcopy]
  | .bytes _ => by rw [deepcopy]
  | .str _ => by rw [deepcopy]
  | .vdf _ => by rw [deepcopy]
  | .none => by rw [deepcopy]
  | .other _ => by rw [deepcopy]

theorem deepcopyList_eq : (xs : List PyVal) → deepcopyList xs = xs
  | [] => by rw [deepcopyList]
  | x :: xs => by rw [deepcopyList, deepcopy_eq x, deepcopyList_eq xs]

theorem deepcopyDict_eq : (d : TlvDict) → deepcopyDict d = d
  | [] => by rw [deepcopyDict]
  | (k, v) :: d => by rw [deepcopyDict, deepcopy_eq v, deepcopyDict_eq d]

end

/-! ### The encoder (source lines 34–96) -/

/-- Source lines 73–76: `try: new_value = ConvertValue(value) except ValueError
as e: new_value = str(e)` — a `ValueError` is caught and replaced by its
message string; any other exception propagates. -/
def catchValueError : Except PyErr JVal → Except PyErr JVal
  | .error (.valueError m) => .ok (.str m)
  | r => r

/-- Source lines 78–83: the sub-tag of an `ARRAY` field.  `orig` is the
uncopied `tlv_data[key]`; `new_value` is the converted value.  `tlv_data[key][0]`
on an empty or non-list object would raise `IndexError`/`TypeError`; we show
below that this branch is unreachable. -/
def sub_tag (element_type : String) (orig : PyVal) (new_value : JVal) :
    Except PyErr String :=
  if element_type = "ARRAY" then
    if PyLen new_value ≠ 0 then
      match orig with
      | .list (x :: _) => lookupTag (type_of x)
      | _ => .error .indexError
    else .ok "?"
  else .ok ""

/-- Source lines 85–92: build the composite key.  `if element_type:` and
`if sub_element_type:` are Python string truthiness, i.e. non-emptiness. -/
def new_key (key : Int) (element_type sub_element_type : String) : String :=
  if element_type ≠ "" then
    if sub_element_type ≠ "" then
      toString key ++ ":" ++ element_type ++ "-" ++ sub_element_type
    else
      toString key ++ ":" ++ element_type
  else toString key

mutual

/-- Source lines 53–64: `ConvertValue`.  The `isinstance` tests fire in source
order: `ValueDecodeFailure` raises `ValueError("Bad Value: " + str(value))`,
`bytes` is base64-encoded, `list` is converted elementwise, `dict` recurses
into `MatterTlvToJson`, everything else is returned unchanged. -/
def ConvertValue : PyVal → Except PyErr JVal
  | .vdf s => .error (.valueError ("Bad Value: " ++ s))
  | .bytes bs => .ok (.str (b64encode bs))
  | .list xs =>
      match ConvertList xs with
      | .error e => .error e
      | .ok ys => .ok (.arr ys)
  | .dict d =>
      match MatterTlvToJson d with
      | .error e => .error e
      | .ok out => .ok (.obj out)
  | .uint n => .ok (.uint n)
  | .int n => .ok (.int n)
  | .bool b => .ok (.bool b)
  | .float32 q => .ok (.float32 q)
  | .float q => .ok (.float q)
  | .str s => .ok (.str s)
  | .none => .ok .none
  | .other c => .ok (.other c)
termination_by v => sizeOf v
decreasing_by all_goals (simp_wf; try omega)

/-- Source line 60: `[ConvertValue(item) for item in value]` — the first
exception aborts the whole comprehension. -/
def ConvertList : List PyVal → Except PyErr (List JVal)
  | [] => .ok []
  | x :: xs =>
      match ConvertValue x with
      | .error e => .error e
      | .ok j =>
          match ConvertList xs with
          | .error e => .error e
          | .ok js => .ok (j :: js)
termination_by xs => sizeOf xs
decreasing_by all_goals (simp_wf; try omega)

/-- Source lines 66–94: the body of the `for key in tlv_data` loop for one
entry.  Line 70 looks the exact runtime class up in `key_type_mappings`
(KeyError propagates), line 68 deep-copies the value, lines 73–76 convert it
catching `ValueError`, lines 78–83 compute the array sub-tag from the original
`tlv_data[key][0]`, lines 85–94 build the composite key. -/
def encodeEntry (key : Int) (v : PyVal) : Except PyErr (String × JVal) :=
  match lookupTag (type_of v) with
  | .error e => .error e
  | .ok element_type =>
      match catchValueError (ConvertValue (deepcopy v)) with
      | .error e => .error e
      | .ok new_value =>
          match sub_tag element_type v new_value with
          | .error e => .error e
          | .ok sub_element_type =>
              .ok (new_key key element_type sub_element_type, new_value)
termination_by sizeOf v + 1
decreasing_by all_goals (simp_wf; try rw [deepcopy_eq]; try omega)

/-- Source lines 34–96: `MatterTlvToJson`.  Entries are processed in the
dict's insertion order; the first uncaught exception propagates out and the
partially built `matter_json_dict` is discarded. -/
def MatterTlvToJson : TlvDict → Except PyErr JsonDict
  | [] => .ok []
  | (key, v) :: rest =>
      match encodeEntry key v with
      | .error e => .error e
      | .ok entry =>
          match MatterTlvToJson rest with
          | .error e => .error e
          | .ok tail => .ok (entry :: tail)
termination_by d => sizeOf d
decreasing_by all_goals (simp_wf; try omega)

end

/-! ### Ground facts about the tag table -/

@[simp] theorem lookupTag_uint : lookupTag .uint = .ok "UINT" := rfl

@[simp] theorem lookupTag_int : lookupTag .int = .ok "INT" := rfl

@[simp] theorem lookupTag_bool : lookupTag .bool = .ok "BOOL" := rfl

@[simp] theorem lookupTag_list : lookupTag .list = .ok "ARRAY" := rfl

@[simp] theorem lookupTag_dict : lookupTag .dict = .ok "STRUCT" := rfl

@[simp] theorem lookupTag_float32 : lookupTag .float32 = .ok "FLOAT" := rfl

@[simp] theorem lookupTag_float : lookupTag .float = .ok "DOUBLE" := rfl

@[simp] theorem lookupTag_bytes : lookupTag .bytes = .ok "BYTES" := rfl

@[simp] theorem lookupTag_str : lookupTag .str = .ok "STRING" := rfl

@[simp] theorem lookupTag_vdf : lookupTag .vdf = .ok "ERROR" := rfl

@[simp] theorem lookupTag_noneType : lookupTag .noneType = .ok "NULL" := rfl

@[simp] theorem lookupTag_other (c : String) :
    lookupTag (.other c) = .error .keyError := rfl

/-! ### Small string facts -/

theorem length_ne_zero_of_ne_empty {s : String} (h : s ≠ "") : s.length ≠ 0 := by
  cases s with
  | mk l =>
    cases l with
    | nil => simp at h
    | cons c cs => simp [String.length]

theorem badValue_ne_empty (s : String) : "Bad Value: " ++ s ≠ "" := by
  cases s with
  | mk l =>
    intro h
    rw [show "Bad Value: " ++ String.mk l = String.mk ("Bad Value: ".data ++ l) from rfl] at h
    simp [String.ext_iff] at h

/-! ### Well-formed inputs: every reachable value is one of the eleven
decoded-TLV variants (no object of an unmapped class anywhere). -/

mutual

/-- `true` iff no `other` (unmapped-class) object occurs in the value. -/
def wf : PyVal → Bool
  | .uint _ => true
  | .int _ => true
  | .bool _ => true
  | .list xs => wfList xs
  | .dict d => wfDict d
  | .float32 _ => true
  | .float _ => true
  | .bytes _ => true
  | .str _ => true
  | .vdf _ => true
  | .none => true
  | .other _ => false

def wfList : List PyVal → Bool
  | [] => true
  | x :: xs => wf x && wfList xs

def wfDict : TlvDict → Bool
  | [] => true
  | (_, v) :: d => wf v && wfDict d

end

/-! ### Basic facts about `ConvertList` -/

theorem ConvertList_length {xs : List PyVal} {ys : List JVal}
    (h : ConvertList xs = .ok ys) : ys.length = xs.length := by
  induction xs generalizing ys with
  | nil => rw [ConvertList] at h; cases h; rfl
  | cons x xs ih =>
    rw [ConvertList] at h
    split at h
    · cases h
    · split at h
      · cases h
      · cases h
        simp [ih (by assumption)]

theorem ConvertList_ok_mem {xs : List PyVal} {ys : List JVal}
    (h : ConvertList xs = .ok ys) : ∀ x ∈ xs, ∃ j, ConvertValue x = .ok j := by
  induction xs generalizing ys with
  | nil => intro x hx; cases hx
  | cons x xs ih =>
    rw [ConvertList] at h
    split at h
    · cases h
    · split at h
      · cases h
      · intro z hz
        rcases List.mem_cons.mp hz with hz | hz
        · subst hz; exact ⟨_, by assumption⟩
        · exact ih (by assumption) z hz


/-! ### Ground facts about `type_of` and `sub_tag` -/

@[simp] theorem type_of_uint (n : Nat) : type_of (.uint n) = .uint := rfl

@[simp] theorem type_of_int (n : Int) : type_of (.int n) = .int := rfl

@[simp] theorem type_of_bool (b : Bool) : type_of (.bool b) = .bool := rfl

@[simp] theorem type_of_list (xs : List PyVal) : type_of (.list xs) = .list := rfl

@[simp] theorem type_of_dict (d : TlvDict) : type_of (.dict d) = .dict := rfl

@[simp] theorem type_of_float32 (q : Rat) : type_of (.float32 q) = .float32 := rfl

@[simp] theorem type_of_float (q : Rat) : type_of (.float q) = .float := rfl

@[simp] theorem type_of_bytes (bs : List Nat) : type_of (.bytes bs) = .bytes := rfl

@[simp] theorem type_of_str (s : String) : type_of (.str s) = .str := rfl

@[simp] theorem type_of_vdf (s : String) : type_of (.vdf s) = .vdf := rfl

@[simp] theorem type_of_none : type_of .none = .noneType := rfl

@[simp] theorem type_of_other (c : String) : type_of (.other c) = .other c := rfl

theorem sub_tag_not_array {t : String} (orig : PyVal) (nv : JVal)
    (h : t ≠ "ARRAY") : sub_tag t orig nv = .ok "" := by
  simp [sub_tag, h]

theorem sub_tag_array_nil (x : PyVal) : sub_tag "ARRAY" x (.arr []) = .ok "?" := by
  simp [sub_tag, PyLen]

theorem sub_tag_array_arr {ys : List JVal} (x : PyVal) (xs : List PyVal)
    (h : ys ≠ []) : sub_tag "ARRAY" (.list (x :: xs)) (.arr ys) = lookupTag (type_of x) := by
  have : ys.length ≠ 0 := by simpa using fun hc => h (List.length_eq_zero.mp hc)
  simp only [sub_tag, PyLen, if_pos rfl, this, ne_eq, not_false_iff, if_true]

theorem sub_tag_array_str {m : String} (x : PyVal) (xs : List PyVal)
    (h : m ≠ "") : sub_tag "ARRAY" (.list (x :: xs)) (.str m) = lookupTag (type_of x) := by
  have : m.length ≠ 0 := length_ne_zero_of_ne_empty h
  simp only [sub_tag, PyLen, if_pos rfl, this, ne_eq, not_false_iff, if_true]

/-- The tag lookup on a value's runtime class succeeds exactly on the eleven
mapped variants. -/
theorem lookupTag_type_of_shape : (x : PyVal) →
    (∃ t, lookupTag (type_of x) = .ok t) ∨
    (lookupTag (type_of x) = .error .keyError ∧ wf x = false)
  | .uint _ => .inl ⟨"UINT", by simp⟩
  | .int _ => .inl ⟨"INT", by simp⟩
  | .bool _ => .inl ⟨"BOOL", by simp⟩
  | .list _ => .inl ⟨"ARRAY", by simp⟩
  | .dict _ => .inl ⟨"STRUCT", by simp⟩
  | .float32 _ => .inl ⟨"FLOAT", by simp⟩
  | .float _ => .inl ⟨"DOUBLE", by simp⟩
  | .bytes _ => .inl ⟨"BYTES", by simp⟩
  | .str _ => .inl ⟨"STRING", by simp⟩
  | .vdf _ => .inl ⟨"ERROR", by simp⟩
  | .none => .inl ⟨"NULL", by simp⟩
  | .other _ => .inr ⟨by simp, by simp [wf]⟩

/-- A successful tag lookup never yields the empty string (every table entry
is a non-empty tag). -/
theorem lookupTag_ok_ne_empty {ty : PyType} {t : String}
    (h : lookupTag ty = .ok t) : t ≠ "" := by
  cases ty <;> simp_all <;> exact fun hc => by simp [hc] at h

/-! ### Per-variant characterization of one loop iteration -/

theorem encodeEntry_uint (k : Int) (n : Nat) :
    encodeEntry k (.uint n) = .ok (toString k ++ ":UINT", .uint n) := by
  simp [encodeEntry, ConvertValue, catchValueError, deepcopy_eq, sub_tag,
    new_key, String.append_assoc]

theorem encodeEntry_int (k : Int) (n : Int) :
    encodeEntry k (.int n) = .ok (toString k ++ ":INT", .int n) := by
  simp [encodeEntry, ConvertValue, catchValueError, deepcopy_eq, sub_tag,
    new_key, String.append_assoc]

theorem encodeEntry_bool (k : Int) (b : Bool) :
    encodeEntry k (.bool b) = .ok (toString k ++ ":BOOL", .bool b) := by
  simp [encodeEntry, ConvertValue, catchValueError, deepcopy_eq, sub_tag,
    new_key, String.append_assoc]

theorem encodeEntry_float32 (k : Int) (q : Rat) :
    encodeEntry k (.float32 q) = .ok (toString k ++ ":FLOAT", .float32 q) := by
  simp [encodeEntry, ConvertValue, catchValueError, deepcopy_eq, sub_tag,
    new_key, String.append_assoc]

theorem encodeEntry_float (k : Int) (q : Rat) :
    encodeEntry k (.float q) = .ok (toString k ++ ":DOUBLE", .float q) := by
  simp [encodeEntry, ConvertValue, catchValueError, deepcopy_eq, sub_tag,
    new_key, String.append_assoc]

theorem encodeEntry_bytes (k : Int) (bs : List Nat) :
    encodeEntry k (.bytes bs) = .ok (toString k ++ ":BYTES", .str (b64encode bs)) := by
  simp [encodeEntry, ConvertValue, catchValueError, deepcopy_eq, sub_tag,
    new_key, String.append_assoc]

theorem encodeEntry_str (k : Int) (s : String) :
    encodeEntry k (.str s) = .ok (toString k ++ ":STRING", .str s) := by
  simp [encodeEntry, ConvertValue, catchValueError, deepcopy_eq, sub_tag,
    new_key, String.append_assoc]

theorem encodeEntry_vdf (k : Int) (m : String) :
    encodeEntry k (.vdf m) = .ok (toString k ++ ":ERROR", .str ("Bad Value: " ++ m)) := by
  simp [encodeEntry, ConvertValue, catchValueError, deepcopy_eq, sub_tag,
    new_key, String.append_assoc]

theorem encodeEntry_none (k : Int) :
    encodeEntry k .none = .ok (toString k ++ ":NULL", .none) := by
  simp [encodeEntry, ConvertValue, catchValueError, deepcopy_eq, sub_tag,
    new_key, String.append_assoc]

theorem encodeEntry_other (k : Int) (c : String) :
    encodeEntry k (.other c) = .error .keyError := by
  simp [encodeEntry]

theorem encodeEntry_dict_ok {d : TlvDict} {out : JsonDict} (k : Int)
    (h : MatterTlvToJson d = .ok out) :
    encodeEntry k (.dict d) = .ok (toString k ++ ":STRUCT", .obj out) := by
  simp [encodeEntry, ConvertValue, h, catchValueError, deepcopy_eq, sub_tag,
    new_key, String.append_assoc]

theorem encodeEntry_dict_err {d : TlvDict} (k : Int)
    (h : MatterTlvToJson d = .error .keyError) :
    encodeEntry k (.dict d) = .error .keyError := by
  simp [encodeEntry, ConvertValue, h, catchValueError, deepcopy_eq]

theorem encodeEntry_list_nil (k : Int) :
    encodeEntry k (.list []) = .ok (toString k ++ ":ARRAY-?", .arr []) := by
  simp [encodeEntry, ConvertValue, ConvertList, catchValueError, deepcopy_eq,
    sub_tag, PyLen, new_key, String.append_assoc]

theorem encodeEntry_list_ok {x : PyVal} {xs : List PyVal} {ys : List JVal}
    {t : String} (k : Int) (hys : ConvertList (x :: xs) = .ok ys)
    (ht : lookupTag (type_of x) = .ok t) :
    encodeEntry k (.list (x :: xs)) = .ok (toString k ++ ":ARRAY-" ++ t, .arr ys) := by
  have hne : ys ≠ [] := by
    have := ConvertList_length hys
    intro hc
    simp [hc] at this
  have hts : t ≠ "" := lookupTag_ok_ne_empty ht
  rw [show encodeEntry k (.list (x :: xs)) =
      (match catchValueError (ConvertValue (deepcopy (.list (x :: xs)))) with
        | .error e => .error e
        | .ok new_value =>
            match sub_tag "ARRAY" (.list (x :: xs)) new_value with
            | .error e => .error e
            | .ok sub_element_type =>
                .ok (new_key k "ARRAY" sub_element_type, new_value)) from by
    rw [encodeEntry]; simp]
  simp only [deepcopy_eq,
    show ConvertValue (.list (x :: xs)) = .ok (.arr ys) from by rw [ConvertValue, hys],
    catchValueError, sub_tag_array_arr x xs hne, ht]
  simp [new_key, hts, String.append_assoc]

theorem encodeEntry_list_str {x : PyVal} {xs : List PyVal} {m t : String}
    (k : Int) (hm : ConvertList (x :: xs) = .error (.valueError m)) (hms : m ≠ "")
    (ht : lookupTag (type_of x) = .ok t) :
    encodeEntry k (.list (x :: xs)) = .ok (toString k ++ ":ARRAY-" ++ t, .str m) := by
  have hts : t ≠ "" := lookupTag_ok_ne_empty ht
  rw [show encodeEntry k (.list (x :: xs)) =
      (match catchValueError (ConvertValue (deepcopy (.list (x :: xs)))) with
        | .error e => .error e
        | .ok new_value =>
            match sub_tag "ARRAY" (.list (x :: xs)) new_value with
            | .error e => .error e
            | .ok sub_element_type =>
                .ok (new_key k "ARRAY" sub_element_type, new_value)) from by
    rw [encodeEntry]; simp]
  simp only [deepcopy_eq,
    show ConvertValue (.list (x :: xs)) = .error (.valueError m) from by rw [ConvertValue, hm],
    catchValueError, sub_tag_array_str x xs hms, ht]
  simp [new_key, hts, String.append_assoc]

theorem encodeEntry_list_subtag_err {x : PyVal} {xs : List PyVal} {nv : JVal}
    (k : Int) (hnv : catchValueError (ConvertValue (.list (x :: xs))) = .ok nv)
    (hlen : PyLen nv ≠ 0) (ht : lookupTag (type_of x) = .error .keyError) :
    encodeEntry k (.list (x :: xs)) = .error .keyError := by
  rw [show encodeEntry k (.list (x :: xs)) =
      (match catchValueError (ConvertValue (deepcopy (.list (x :: xs)))) with
        | .error e => .error e
        | .ok new_value =>
            match sub_tag "ARRAY" (.list (x :: xs)) new_value with
            | .error e => .error e
            | .ok sub_element_type =>
                .ok (new_key k "ARRAY" sub_element_type, new_value)) from by
    rw [encodeEntry]; simp]
  simp only [deepcopy_eq, hnv,
    show sub_tag "ARRAY" (.list (x :: xs)) nv = lookupTag (type_of x) from by
      unfold sub_tag
      rw [if_pos rfl, if_pos hlen],
    ht]

theorem encodeEntry_list_conv_err {xs : List PyVal} (k : Int)
    (hk : ConvertList xs = .error .keyError) :
    encodeEntry k (.list xs) = .error .keyError := by
  rw [show encodeEntry k (.list xs) =
      (match catchValueError (ConvertValue (deepcopy (.list xs))) with
        | .error e => .error e
        | .ok new_value =>
            match sub_tag "ARRAY" (.list xs) new_value with
            | .error e => .error e
            | .ok sub_element_type =>
                .ok (new_key k "ARRAY" sub_element_type, new_value)) from by
    rw [encodeEntry]; simp]
  simp only [deepcopy_eq,
    show ConvertValue (.list xs) = .error .keyError from by rw [ConvertValue, hk],
    catchValueError]

/-! ### What can escape the encoder: result-shape analysis -/

mutual

/-- `ConvertValue` either succeeds, raises a `ValueError` whose message starts
with `Bad Value: `, or raises `KeyError` — the latter only when the value
contains an object of an unmapped class. -/
theorem ConvertValue_shape : (v : PyVal) →
    (∃ j, ConvertValue v = .ok j) ∨
    (∃ m, ConvertValue v = .error (.valueError ("Bad Value: " ++ m))) ∨
    (ConvertValue v = .error .keyError ∧ wf v = false)
  | .uint n => .inl ⟨.uint n, by rw [ConvertValue]⟩
  | .int n => .inl ⟨.int n, by rw [ConvertValue]⟩
  | .bool b => .inl ⟨.bool b, by rw [ConvertValue]⟩
  | .float32 q => .inl ⟨.float32 q, by rw [ConvertValue]⟩
  | .float q => .inl ⟨.float q, by rw [ConvertValue]⟩
  | .bytes bs => .inl ⟨.str (b64encode bs), by rw [ConvertValue]⟩
  | .str s => .inl ⟨.str s, by rw [ConvertValue]⟩
  | .none => .inl ⟨.none, by rw [ConvertValue]⟩
  | .other c => .inl ⟨.other c, by rw [ConvertValue]⟩
  | .vdf s => .inr (.inl ⟨s, by rw [ConvertValue]⟩)
  | .list xs => by
      rcases ConvertList_shape xs with ⟨ys, hys⟩ | ⟨m, hm⟩ | ⟨hk, hwf⟩
      · exact .inl ⟨.arr ys, by rw [ConvertValue, hys]⟩
      · exact .inr (.inl ⟨m, by rw [ConvertValue, hm]⟩)
      · exact .inr (.inr ⟨by rw [ConvertValue, hk], by simp [wf, hwf]⟩)
  | .dict d => by
      rcases MatterTlvToJson_shape d with ⟨out, hout⟩ | ⟨hk, hwf⟩
      · exact .inl ⟨.obj out, by rw [ConvertValue, hout]⟩
      · exact .inr (.inr ⟨by rw [ConvertValue, hk], by simp [wf, hwf]⟩)
termination_by v => sizeOf v
decreasing_by all_goals (simp_wf; try omega)

theorem ConvertList_shape : (xs : List PyVal) →
    (∃ ys, ConvertList xs = .ok ys) ∨
    (∃ m, ConvertList xs = .error (.valueError ("Bad Value: " ++ m))) ∨
    (ConvertList xs = .error .keyError ∧ wfList xs = false)
  | [] => .inl ⟨[], by rw [ConvertList]⟩
  | x :: xs => by
      rcases ConvertValue_shape x with ⟨j, hj⟩ | ⟨m, hm⟩ | ⟨hk, hwf⟩
      · rcases ConvertList_shape xs with ⟨ys, hys⟩ | ⟨m, hm⟩ | ⟨hk, hwf⟩
        · exact .inl ⟨j :: ys, by rw [ConvertList, hj, hys]⟩
        · exact .inr (.inl ⟨m, by rw [ConvertList, hj, hm]⟩)
        · exact .inr (.inr ⟨by rw [ConvertList, hj, hk], by simp [wfList, hwf]⟩)
      · exact .inr (.inl ⟨m, by rw [ConvertList, hm]⟩)
      · exact .inr (.inr ⟨by rw [ConvertList, hk], by simp [wfList, hwf]⟩)
termination_by xs => sizeOf xs
decreasing_by all_goals (simp_wf; try omega)

/-- One loop iteration either yields an entry or raises `KeyError`, and the
latter only when the field's value contains an object of an unmapped class.
In particular a `ValueError` from a `ValueDecodeFailure` never escapes an
iteration, and the `IndexError` branch of the sub-tag step is unreachable. -/
theorem encodeEntry_shape : (k : Int) → (v : PyVal) →
    (∃ e, encodeEntry k v = .ok e) ∨
    (encodeEntry k v = .error .keyError ∧ wf v = false)
  | k, .uint n => .inl ⟨_, encodeEntry_uint k n⟩
  | k, .int n => .inl ⟨_, encodeEntry_int k n⟩
  | k, .bool b => .inl ⟨_, encodeEntry_bool k b⟩
  | k, .float32 q => .inl ⟨_, encodeEntry_float32 k q⟩
  | k, .float q => .inl ⟨_, encodeEntry_float k q⟩
  | k, .bytes bs => .inl ⟨_, encodeEntry_bytes k bs⟩
  | k, .str s => .inl ⟨_, encodeEntry_str k s⟩
  | k, .vdf s => .inl ⟨_, encodeEntry_vdf k s⟩
  | k, .none => .inl ⟨_, encodeEntry_none k⟩
  | k, .other c => .inr ⟨encodeEntry_other k c, by simp [wf]⟩
  | k, .dict d => by
      rcases MatterTlvToJson_shape d with ⟨out, hout⟩ | ⟨hk, hwf⟩
      · exact .inl ⟨_, encodeEntry_dict_ok k hout⟩
      · exact .inr ⟨encodeEntry_dict_err k hk, by simp [wf, hwf]⟩
  | k, .list [] => .inl ⟨_, encodeEntry_list_nil k⟩
  | k, .list (x :: xs) => by
      rcases ConvertList_shape (x :: xs) with ⟨ys, hys⟩ | ⟨m, hm⟩ | ⟨hk, hwf⟩
      · rcases lookupTag_type_of_shape x with ⟨t, ht⟩ | ⟨ht, hwfx⟩
        · exact .inl ⟨_, encodeEntry_list_ok k hys ht⟩
        · refine .inr ⟨?_, by simp [wf, wfList, hwfx]⟩
          have hlen : PyLen (.arr ys) ≠ 0 := by
            simp [PyLen, ConvertList_length hys]
          exact encodeEntry_list_subtag_err k
            (by rw [show ConvertValue (.list (x :: xs)) = .ok (.arr ys) from by
                  rw [ConvertValue, hys]]
                rfl) hlen ht
      · rcases lookupTag_type_of_shape x with ⟨t, ht⟩ | ⟨ht, hwfx⟩
        · exact .inl ⟨_, encodeEntry_list_str k hm (badValue_ne_empty m) ht⟩
        · refine .inr ⟨?_, by simp [wf, wfList, hwfx]⟩
          have hlen : PyLen (.str ("Bad Value: " ++ m)) ≠ 0 := by
            simpa [PyLen] using length_ne_zero_of_ne_empty (badValue_ne_empty m)
          exact encodeEntry_list_subtag_err k
            (by rw [show ConvertValue (.list (x :: xs)) = .error (.valueError ("Bad Value: " ++ m)) from by
                  rw [ConvertValue, hm]]
                rfl) hlen ht
      · exact .inr ⟨encodeEntry_list_conv_err k hk, by simp [wf, hwf]⟩
termination_by _ v => sizeOf v
decreasing_by all_goals (simp_wf; try omega)

/-- `MatterTlvToJson` either returns a dict or raises `KeyError`, the latter
only when the input contains an object of an unmapped class. -/
theorem MatterTlvToJson_shape : (d : TlvDict) →
    (∃ out, MatterTlvToJson d = .ok out) ∨
    (MatterTlvToJson d = .error .keyError ∧ wfDict d = false)
  | [] => .inl ⟨[], by rw [MatterTlvToJson]⟩
  | (k, v) :: rest => by
      rcases encodeEntry_shape k v with ⟨e, he⟩ | ⟨hk, hwf⟩
      · rcases MatterTlvToJson_shape rest with ⟨out, hout⟩ | ⟨hk2, hwf2⟩
        · exact .inl ⟨e :: out, by rw [MatterTlvToJson, he, hout]⟩
        · exact .inr ⟨by rw [MatterTlvToJson, he, hk2], by simp [wfDict, hwf2]⟩
      · exact .inr ⟨by rw [MatterTlvToJson, hk], by simp [wfDict, hwf]⟩
termination_by d => sizeOf d
decreasing_by all_goals (simp_wf; try omega)

end

/-! ### Compositional facts about the loop -/

theorem MatterTlvToJson_nil : MatterTlvToJson [] = .ok [] := by rw [MatterTlvToJson]

theorem MatterTlvToJson_cons_ok {k : Int} {v : PyVal} {e : String × JVal}
    {rest : TlvDict} {tail : JsonDict} (he : encodeEntry k v = .ok e)
    (ht : MatterTlvToJson rest = .ok tail) :
    MatterTlvToJson ((k, v) :: rest) = .ok (e :: tail) := by
  rw [MatterTlvToJson, he, ht]

theorem MatterTlvToJson_cons_err {k : Int} {v : PyVal} {e : PyErr}
    (rest : TlvDict) (he : encodeEntry k v = .error e) :
    MatterTlvToJson ((k, v) :: rest) = .error e := by
  rw [MatterTlvToJson, he]

/-- Encoding a concatenation of dicts concatenates the encodings. -/
theorem MatterTlvToJson_append_ok {d1 d2 : TlvDict} {out1 out2 : JsonDict}
    (h1 : MatterTlvToJson d1 = .ok out1) (h2 : MatterTlvToJson d2 = .ok out2) :
    MatterTlvToJson (d1 ++ d2) = .ok (out1 ++ out2) := by
  induction d1 generalizing out1 with
  | nil =>
    rw [MatterTlvToJson_nil] at h1
    cases h1
    simpa using h2
  | cons p rest ih =>
    obtain ⟨k, v⟩ := p
    rw [MatterTlvToJson] at h1
    split at h1
    · cases h1
    · rename_i e he
      split at h1
      · cases h1
      · rename_i tail htail
        cases h1
        exact MatterTlvToJson_cons_ok he (ih htail)

/-- Every successful encoding is the entrywise image of the input, in the
input's iteration order. -/
theorem MatterTlvToJson_forall2 {d : TlvDict} {out : JsonDict}
    (h : MatterTlvToJson d = .ok out) :
    List.Forall₂ (fun p e => encodeEntry p.1 p.2 = .ok e) d out := by
  induction d generalizing out with
  | nil => rw [MatterTlvToJson_nil] at h; cases h; constructor
  | cons p rest ih =>
    obtain ⟨k, v⟩ := p
    rw [MatterTlvToJson] at h
    split at h
    · cases h
    · split at h
      · cases h
      · cases h
        exact List.Forall₂.cons (by assumption) (ih (by assumption))

/-- On well-formed input (only the eleven decoded variants anywhere), the
encoder always returns normally. -/
theorem MatterTlvToJson_wf_ok {d : TlvDict} (h : wfDict d = true) :
    ∃ out, MatterTlvToJson d = .ok out := by
  rcases MatterTlvToJson_shape d with hok | ⟨_, hwf⟩
  · exact hok
  · rw [h] at hwf; cases hwf

/-! ### base64 round-trip -/

theorem b64Char_ne_pad (n : Nat) : b64Char n ≠ '=' := by
  unfold b64Char
  rcases Nat.lt_or_ge n 64 with h | h
  · have hall : ∀ i : Fin 64, b64Alphabet.getD i.1 '?' ≠ '=' := by decide
    exact hall ⟨n, h⟩
  · rw [List.getD_eq_default]
    · decide
    · have hlen : b64Alphabet.length = 64 := by decide
      omega

theorem b64Index_b64Char {n : Nat} (h : n < 64) : b64Index (b64Char n) = n := by
  have hall : ∀ i : Fin 64, b64Index (b64Char i.1) = i.1 := by decide
  exact hall ⟨n, h⟩

theorem b64_roundtrip_chars : (bs : List Nat) → (∀ b ∈ bs, b < 256) →
    b64decodeChars (b64encodeChars bs) = bs
  | [], _ => rfl
  | [a], h => by
    have ha : a < 256 := h a (by simp)
    rw [b64encodeChars, b64decodeChars]
    rw [if_pos rfl]
    rw [b64Index_b64Char (by omega), b64Index_b64Char (by omega)]
    simp only [List.cons.injEq, and_true]
    omega
  | [a, b], h => by
    have ha : a < 256 := h a (by simp)
    have hb : b < 256 := h b (by simp)
    rw [b64encodeChars, b64decodeChars]
    rw [if_neg (b64Char_ne_pad _), if_pos rfl]
    rw [b64Index_b64Char (by omega), b64Index_b64Char (by omega),
      b64Index_b64Char (by omega)]
    simp only [List.cons.injEq, and_true]
    omega
  | a :: b :: c :: rest, h => by
    have ha : a < 256 := h a (by simp)
    have hb : b < 256 := h b (by simp)
    have hc : c < 256 := h c (by simp)
    have ih := b64_roundtrip_chars rest (fun x hx => h x (by simp [hx]))
    rw [b64encodeChars, b64decodeChars]
    rw [if_neg (b64Char_ne_pad _), if_neg (b64Char_ne_pad _)]
    rw [b64Index_b64Char (by omega), b64Index_b64Char (by omega),
      b64Index_b64Char (by omega), b64Index_b64Char (by omega), ih]
    simp only [List.cons.injEq, and_true]
    omega

/-- Decoding the encoder's base64 output recovers the exact input bytes. -/
theorem b64_roundtrip (bs : List Nat) (h : ∀ b ∈ bs, b < 256) :
    b64decode (b64encode bs) = bs := by
  rw [b64encode, b64decode]
  exact b64_roundtrip_chars bs h

/-- From an entrywise correspondence, every left member has a related right
member. -/
theorem forall2_mem_left {α β : Type} {R : α → β → Prop} {l1 : List α}
    {l2 : List β} (h : List.Forall₂ R l1 l2) {a : α} (ha : a ∈ l1) :
    ∃ b ∈ l2, R a b := by
  induction h with
  | nil => cases ha
  | cons hr htail ih =>
    rcases List.mem_cons.mp ha with rfl | ha2
    · exact ⟨_, by simp, hr⟩
    · rcases ih ha2 with ⟨b, hb, hrb⟩
      exact ⟨b, by simp [hb], hrb⟩

/-- A successfully encoded single-field dict whose value is a non-empty array
has exactly one entry, keyed by the first element's tag. -/
theorem encode_singleton_array_key {k : Int} {x : PyVal} {xs : List PyVal}
    {t : String} {out : JsonDict} (ht : lookupTag (type_of x) = .ok t)
    (hout : MatterTlvToJson [(k, .list (x :: xs))] = .ok out) :
    ∃ v, out = [(toString k ++ ":ARRAY-" ++ t, v)] := by
  rcases ConvertList_shape (x :: xs) with ⟨ys, hys⟩ | ⟨m, hm⟩ | ⟨hk, _⟩
  · rw [MatterTlvToJson_cons_ok (encodeEntry_list_ok k hys ht) MatterTlvToJson_nil] at hout
    cases hout
    exact ⟨.arr ys, rfl⟩
  · rw [MatterTlvToJson_cons_ok
      (encodeEntry_list_str k hm (badValue_ne_empty m) ht) MatterTlvToJson_nil] at hout
    cases hout
    exact ⟨.str ("Bad Value: " ++ m), rfl⟩
  · rw [MatterTlvToJson_cons_err [] (encodeEntry_list_conv_err k hk)] at hout
    cases hout

/-- State-passing embedding of one call of `MatterTlvToJson` on its argument
object: the loop of lines 66–94 reads `tlv_data` (lines 66, 67, 68, 81) and
assigns only into the fresh local `matter_json_dict` (line 94), so each
iteration hands the entry it visited back unchanged; the second component is
the argument object as the call leaves it. -/
def EncodeSt : TlvDict → Except PyErr JsonDict × TlvDict
  | [] => (.ok [], [])
  | (key, v) :: rest =>
      match encodeEntry key v with
      | .error e => (.error e, (key, v) :: rest)
      | .ok entry =>
          match EncodeSt rest with
          | (.error e, rest2) => (.error e, (key, v) :: rest2)
          | (.ok tail, rest2) => (.ok (entry :: tail), (key, v) :: rest2)

/-- The state-passing run leaves the input dict intact and returns exactly
what `MatterTlvToJson` returns. -/
theorem EncodeSt_spec (d : TlvDict) :
    (EncodeSt d).2 = d ∧ (EncodeSt d).1 = MatterTlvToJson d := by
  induction d with
  | nil => exact ⟨rfl, by rw [EncodeSt, MatterTlvToJson]⟩
  | cons p rest ih =>
    obtain ⟨k, v⟩ := p
    obtain ⟨ih2, ih1⟩ := ih
    rw [EncodeSt, MatterTlvToJson]
    cases he : encodeEntry k v with
    | error e => simp
    | ok entry =>
      cases hst : EncodeSt rest with
      | mk res store =>
        rw [hst] at ih1 ih2
        simp only at ih1 ih2
        cases res with
        | error e => simp [ih1.symm, ih2]
        | ok tail => simp [ih1.symm, ih2]

/-! ### The claims -/

/-- C1: for every scalar variant V with table tag T — `chip.tlv.uint`/UINT,
`int`/INT, `bool`/BOOL, `chip.tlv.float32`/FLOAT, `float`/DOUBLE,
`str`/STRING, `None`/NULL — encoding the single-field tree `{k: V(x)}` yields
exactly the one-entry mapping `{"k:T": x}`, with the scalar passing through
unchanged. -/
theorem c1_scalar_passthrough (k : Int) (n : Nat) (i : Int) (b : Bool)
    (q r : Rat) (s : String) :
    MatterTlvToJson [(k, .uint n)] = .ok [(toString k ++ ":UINT", .uint n)] ∧
    MatterTlvToJson [(k, .int i)] = .ok [(toString k ++ ":INT", .int i)] ∧
    MatterTlvToJson [(k, .bool b)] = .ok [(toString k ++ ":BOOL", .bool b)] ∧
    MatterTlvToJson [(k, .float32 q)] = .ok [(toString k ++ ":FLOAT", .float32 q)] ∧
    MatterTlvToJson [(k, .float r)] = .ok [(toString k ++ ":DOUBLE", .float r)] ∧
    MatterTlvToJson [(k, .str s)] = .ok [(toString k ++ ":STRING", .str s)] ∧
    MatterTlvToJson [(k, .none)] = .ok [(toString k ++ ":NULL", .none)] :=
  ⟨MatterTlvToJson_cons_ok (encodeEntry_uint k n) MatterTlvToJson_nil,
   MatterTlvToJson_cons_ok (encodeEntry_int k i) MatterTlvToJson_nil,
   MatterTlvToJson_cons_ok (encodeEntry_bool k b) MatterTlvToJson_nil,
   MatterTlvToJson_cons_ok (encodeEntry_float32 k q) MatterTlvToJson_nil,
   MatterTlvToJson_cons_ok (encodeEntry_float k r) MatterTlvToJson_nil,
   MatterTlvToJson_cons_ok (encodeEntry_str k s) MatterTlvToJson_nil,
   MatterTlvToJson_cons_ok (encodeEntry_none k) MatterTlvToJson_nil⟩

/-- C2 counterexample: encoding `{5: DecodeFailure("bad TLV")}` yields the
value `"Bad Value: bad TLV"` at key `"5:ERROR"` — the `str(e)` of the caught
`ValueError("Bad Value: " + str(value))` — not the bare diagnostic string
`"bad TLV"` the claim promises. -/
theorem c2_counterexample :
    MatterTlvToJson [(5, .vdf "bad TLV")] =
      .ok [("5:ERROR", .str "Bad Value: bad TLV")] ∧
    MatterTlvToJson [(5, .vdf "bad TLV")] ≠ .ok [("5:ERROR", .str "bad TLV")] := by
  have h1 : MatterTlvToJson [(5, .vdf "bad TLV")] =
      .ok [("5:ERROR", .str "Bad Value: bad TLV")] := by
    simp [MatterTlvToJson, encodeEntry, type_of, catchValueError, ConvertValue,
      deepcopy, sub_tag, new_key, PyLen]
    decide
  refine ⟨h1, ?_⟩
  rw [h1]
  intro hc
  simp only [Except.ok.injEq, List.cons.injEq, Prod.mk.injEq, JVal.str.injEq] at hc
  exact absurd hc.1.2 (by decide)

/-- C2 amended: for every field whose value is a `DecodeFailure`, the value
placed at the field's `"<fieldId>:ERROR"` key is the string
`"Bad Value: " ++ str(failure)` — the message of the `ValueError` the
converter raises — rather than the bare diagnostic string. -/
theorem c2_decode_failure_message (k : Int) (m : String) :
    MatterTlvToJson [(k, .vdf m)] =
      .ok [(toString k ++ ":ERROR", .str ("Bad Value: " ++ m))] :=
  MatterTlvToJson_cons_ok (encodeEntry_vdf k m) MatterTlvToJson_nil

/-- C3: an empty array field gets sub-tag `?`; a non-empty array field gets
the tag-table tag of its first element's variant regardless of all later
elements. -/
theorem c3_array_subtag (k : Int) (x : PyVal) (xs : List PyVal) (t : String)
    (ht : lookupTag (type_of x) = .ok t) :
    MatterTlvToJson [(k, .list [])] = .ok [(toString k ++ ":ARRAY-?", .arr [])] ∧
    ∀ out, MatterTlvToJson [(k, .list (x :: xs))] = .ok out →
      ∃ v, out = [(toString k ++ ":ARRAY-" ++ t, v)] :=
  ⟨MatterTlvToJson_cons_ok (encodeEntry_list_nil k) MatterTlvToJson_nil,
   fun _ hout => encode_singleton_array_key ht hout⟩

/-- C3 witness: `{3: [uint 5, uint 6]}` encodes with key `3:ARRAY-UINT`,
regardless of the second element. -/
theorem c3_array_subtag_witness :
    ∃ v, ([(("3:ARRAY-UINT" : String), JVal.arr [JVal.uint 5, JVal.uint 6])] : JsonDict) =
      [(toString (3 : Int) ++ ":ARRAY-" ++ "UINT", v)] :=
  (c3_array_subtag 3 (.uint 5) [.uint 6] "UINT" (by simp)).2
    [("3:ARRAY-UINT", JVal.arr [JVal.uint 5, JVal.uint 6])]
    (by simp [MatterTlvToJson, encodeEntry, type_of, catchValueError, ConvertValue,
        ConvertList, deepcopy, deepcopyList, sub_tag, new_key, PyLen]
        decide)

/-- C4: a field whose value's runtime class has no entry in the tag table
makes `MatterTlvToJson` raise `KeyError`, which propagates out uncaught — no
result is returned and the field is not skipped. -/
theorem c4_unmapped_variant_fatal (d : TlvDict) (k : Int) (c : String)
    (hm : (k, PyVal.other c) ∈ d) :
    MatterTlvToJson d = .error .keyError := by
  rcases MatterTlvToJson_shape d with ⟨out, hout⟩ | ⟨hk, _⟩
  · exfalso
    obtain ⟨e, _, he⟩ := forall2_mem_left (MatterTlvToJson_forall2 hout) hm
    rw [encodeEntry_other] at he
    cases he
  · exact hk

/-- C4 witness: a dict holding one object of an unmapped class raises. -/
theorem c4_unmapped_variant_fatal_witness :
    MatterTlvToJson [(1, .other "MyCustomCls"), (2, .bool true)] = .error .keyError :=
  c4_unmapped_variant_fatal _ 1 "MyCustomCls" (by simp)

/-- C5: a `DecodeFailure` field never makes the encoder raise and is never
omitted: on any well-formed dict around it, the call returns normally, the
failing field's key maps to a string, and every sibling is encoded exactly
as it would be in the dict without the bad field. -/
theorem c5_decode_failure_isolated (d1 d2 : TlvDict) (k : Int) (m : String)
    (h1 : wfDict d1 = true) (h2 : wfDict d2 = true) :
    ∃ out1 out2,
      MatterTlvToJson (d1 ++ (k, PyVal.vdf m) :: d2) =
        .ok (out1 ++ (toString k ++ ":ERROR", JVal.str ("Bad Value: " ++ m)) :: out2) ∧
      MatterTlvToJson (d1 ++ d2) = .ok (out1 ++ out2) := by
  obtain ⟨out1, ho1⟩ := MatterTlvToJson_wf_ok h1
  obtain ⟨out2, ho2⟩ := MatterTlvToJson_wf_ok h2
  exact ⟨out1, out2,
    MatterTlvToJson_append_ok ho1
      (MatterTlvToJson_cons_ok (encodeEntry_vdf k m) ho2),
    MatterTlvToJson_append_ok ho1 ho2⟩

/-- C5 witness: `{1: True, 5: DecodeFailure("bad TLV"), 2: uint 7}` encodes
with the failure as a string and both siblings intact. -/
theorem c5_decode_failure_isolated_witness :
    ∃ out1 out2,
      MatterTlvToJson ([(1, .bool true)] ++ (5, PyVal.vdf "bad TLV") :: [(2, .uint 7)]) =
        .ok (out1 ++ (toString (5 : Int) ++ ":ERROR", JVal.str ("Bad Value: " ++ "bad TLV")) :: out2) ∧
      MatterTlvToJson ([(1, .bool true)] ++ [(2, .uint 7)]) = .ok (out1 ++ out2) :=
  c5_decode_failure_isolated [(1, .bool true)] [(2, .uint 7)] 5 "bad TLV"
    (by simp [wfDict, wf]) (by simp [wfDict, wf])

/-- C6: a `bytes` field is converted to the base64 encoding of exactly the
input bytes, and base64-decoding that output recovers the original byte
payload. -/
theorem c6_bytes_base64 (k : Int) (bs : List Nat) (h : ∀ b ∈ bs, b < 256) :
    MatterTlvToJson [(k, .bytes bs)] =
      .ok [(toString k ++ ":BYTES", .str (b64encode bs))] ∧
    b64decode (b64encode bs) = bs :=
  ⟨MatterTlvToJson_cons_ok (encodeEntry_bytes k bs) MatterTlvToJson_nil,
   b64_roundtrip bs h⟩

/-- C6 witness: `{4: b"\x00\x01"}` encodes to `{"4:BYTES": "AAE="}` and the
round-trip recovers `[0, 1]`. -/
theorem c6_bytes_base64_witness :
    (MatterTlvToJson [(4, .bytes [0, 1])] =
        .ok [(toString (4 : Int) ++ ":BYTES", .str (b64encode [0, 1]))] ∧
      b64decode (b64encode [0, 1]) = [0, 1]) ∧
    b64encode [0, 1] = "AAE=" ∧ toString (4 : Int) ++ ":BYTES" = "4:BYTES" :=
  ⟨c6_bytes_base64 4 [0, 1] (by decide), by decide, by decide⟩

/-- C7: the encoder never mutates its input: in the state-passing embedding
of one call the argument object comes back deeply equal (and the defensive
`copy.deepcopy` of line 68 is itself the identity on value trees). -/
theorem c7_no_input_mutation (d : TlvDict) :
    (EncodeSt d).2 = d ∧ (EncodeSt d).1 = MatterTlvToJson d ∧
    deepcopyDict d = d :=
  ⟨(EncodeSt_spec d).1, (EncodeSt_spec d).2, deepcopyDict_eq d⟩

/-- C8: the encoder is a pure function — the same tree always produces the
same output — and a successful output corresponds entry-by-entry, in the
input dict's iteration order, to the input fields. -/
theorem c8_deterministic_ordered (d : TlvDict) :
    MatterTlvToJson d = MatterTlvToJson d ∧
    ∀ out, MatterTlvToJson d = .ok out →
      List.Forall₂ (fun p e => encodeEntry p.1 p.2 = .ok e) d out :=
  ⟨rfl, fun _ h => MatterTlvToJson_forall2 h⟩

/-- C8 witness: a two-field dict is encoded entrywise in input order. -/
theorem c8_deterministic_ordered_witness :
    List.Forall₂ (fun p e => encodeEntry p.1 p.2 = .ok e)
      [((1 : Int), PyVal.bool true), (2, PyVal.none)]
      [("1:BOOL", JVal.bool true), ("2:NULL", JVal.none)] :=
  (c8_deterministic_ordered _).2 _
    (by simp [MatterTlvToJson, encodeEntry, type_of, catchValueError, ConvertValue,
        deepcopy, sub_tag, new_key, PyLen]
        decide)

/-- C9: an array containing a `DecodeFailure` anywhere among its elements is
not converted to a JSON array: the whole field's value becomes a single error
string, while the key still carries the `ARRAY` tag and the sub-tag of the
original first element's variant (`ERROR` when the first element is the
failure). -/
theorem c9_array_with_failure (k : Int) (x : PyVal) (xs : List PyVal)
    (m t : String) (hwf : wfList (x :: xs) = true)
    (hmem : PyVal.vdf m ∈ x :: xs) (ht : lookupTag (type_of x) = .ok t) :
    (∃ em, MatterTlvToJson [(k, .list (x :: xs))] =
        .ok [(toString k ++ ":ARRAY-" ++ t, .str em)]) ∧
    (x = .vdf m → t = "ERROR") := by
  constructor
  · rcases ConvertList_shape (x :: xs) with ⟨ys, hys⟩ | ⟨em, hm⟩ | ⟨_, hwf2⟩
    · exfalso
      obtain ⟨j, hj⟩ := ConvertList_ok_mem hys (PyVal.vdf m) hmem
      rw [ConvertValue] at hj
      cases hj
    · exact ⟨"Bad Value: " ++ em,
        MatterTlvToJson_cons_ok
          (encodeEntry_list_str k hm (badValue_ne_empty em) ht) MatterTlvToJson_nil⟩
    · rw [hwf] at hwf2; cases hwf2
  · intro hx
    subst hx
    simp at ht
    exact ht.symm

/-- C9 witness: `{8: [DecodeFailure("boom"), uint 1]}` encodes to a single
error string under key `8:ARRAY-ERROR`. -/
theorem c9_array_with_failure_witness :
    (∃ em, MatterTlvToJson [(8, .list [.vdf "boom", .uint 1])] =
        .ok [(toString (8 : Int) ++ ":ARRAY-" ++ "ERROR", JVal.str em)]) ∧
    (PyVal.vdf "boom" = PyVal.vdf "boom" → ("ERROR" : String) = "ERROR") :=
  c9_array_with_failure 8 (.vdf "boom") [.uint 1] "boom" "ERROR"
    (by simp [wfList, wf]) (by simp) (by simp)

/-- C10: dispatch is by exact runtime class, not by subclass relation: a
`bool` is always tagged `BOOL` and a `chip.tlv.uint` always `UINT` — never
`INT`, although both classes subclass `int` — both for a field's own tag and
for an array's first-element sub-tag. -/
theorem c10_exact_type_dispatch (k : Int) (b : Bool) (n : Nat)
    (xs ys : List PyVal) :
    MatterTlvToJson [(k, .bool b)] = .ok [(toString k ++ ":BOOL", .bool b)] ∧
    MatterTlvToJson [(k, .uint n)] = .ok [(toString k ++ ":UINT", .uint n)] ∧
    ("BOOL" : String) ≠ "INT" ∧ ("UINT" : String) ≠ "INT" ∧
    (∀ out, MatterTlvToJson [(k, .list (.bool b :: xs))] = .ok out →
      ∃ v, out = [(toString k ++ ":ARRAY-" ++ "BOOL", v)]) ∧
    (∀ out, MatterTlvToJson [(k, .list (.uint n :: ys))] = .ok out →
      ∃ v, out = [(toString k ++ ":ARRAY-" ++ "UINT", v)]) :=
  ⟨MatterTlvToJson_cons_ok (encodeEntry_bool k b) MatterTlvToJson_nil,
   MatterTlvToJson_cons_ok (encodeEntry_uint k n) MatterTlvToJson_nil,
   by decide, by decide,
   fun _ hout => encode_singleton_array_key (by simp) hout,
   fun _ hout => encode_singleton_array_key (by simp) hout⟩

/-- C10 witness: `[True]` is sub-tagged `BOOL` and `[uint 3]` is sub-tagged
`UINT`, never `INT`. -/
theorem c10_exact_type_dispatch_witness :
    (∃ v, ([(("9:ARRAY-BOOL" : String), JVal.arr [JVal.bool true])] : JsonDict) =
        [(toString (9 : Int) ++ ":ARRAY-" ++ "BOOL", v)]) ∧
    (∃ v, ([(("9:ARRAY-UINT" : String), JVal.arr [JVal.uint 3])] : JsonDict) =
        [(toString (9 : Int) ++ ":ARRAY-" ++ "UINT", v)]) :=
  ⟨(c10_exact_type_dispatch 9 true 3 [] []).2.2.2.2.1
      [("9:ARRAY-BOOL", JVal.arr [JVal.bool true])]
      (by simp [MatterTlvToJson, encodeEntry, type_of, catchValueError, ConvertValue,
          ConvertList, deepcopy, deepcopyList, sub_tag, new_key, PyLen]
          decide),
   (c10_exact_type_dispatch 9 true 3 [] []).2.2.2.2.2
      [("9:ARRAY-UINT", JVal.arr [JVal.uint 3])]
      (by simp [MatterTlvToJson, encodeEntry, type_of, catchValueError, ConvertValue,
          ConvertList, deepcopy, deepcopyList, sub_tag, new_key, PyLen]
          decide)⟩
